import Mathlib

/-!
Verification of the balance/ledger aggregation logic of the
finance-tracker repository.

The embedded code comes from two source files:

* `src/pages/Expenses.tsx` — the function `calculateSiteBalanceSummary`
  (lines 709-766), the invoice splitting by approver type (lines 298-303)
  and the per-site invoice selection `siteSupervisorInvoices`
  (lines 782-793).
* `src/components/sites/SiteDetail.tsx` — the inline balance computation
  of the `SiteDetail` component (lines 113-131).

Monetary amounts are embedded as `Int` (exact arithmetic standing in for
the JavaScript numbers; the balance can be negative, hence `Int` rather
than `Nat`).  Record fields that the balance logic never reads (dates,
categories, descriptions, image URLs, ...) are omitted; every field that
any of the embedded computations reads is present.

The `AdvancePurpose` enumeration lives in `src/lib/types.ts`, which is
not part of the provided sources; at run time the purpose of an advance
is a string coming from the database that the TypeScript code merely
casts to the enum type, so purposes are embedded as `String`, with the
four enumeration members modelled as distinct string constants.
-/

namespace FinanceTracker

namespace AdvancePurpose

/-!
The `AdvancePurpose` enumeration lives in `src/lib/types.ts`, a file not
present under `src/`.  The spec names the members `ADVANCE`,
`SAFETY_SHOES`, `TOOLS` and `OTHER`; only their distinctness matters to
the embedded logic, so they are modelled as distinct string constants.
-/

/-- Modelled from the spec: the `ADVANCE` member of the `AdvancePurpose`
enumeration (types.ts is missing from the sources). -/
def ADVANCE : String := "advance"

/-- Modelled from the spec: the `SAFETY_SHOES` member of the
`AdvancePurpose` enumeration. -/
def SAFETY_SHOES : String := "safety_shoes"

/-- Modelled from the spec: the `TOOLS` member of the `AdvancePurpose`
enumeration. -/
def TOOLS : String := "tools"

/-- Modelled from the spec: the `OTHER` member of the `AdvancePurpose`
enumeration. -/
def OTHER : String := "other"

/-- Modelled from the spec: the list of all legal values of the
`AdvancePurpose` enumeration. -/
def values : List String := [ADVANCE, SAFETY_SHOES, TOOLS, OTHER]

end AdvancePurpose

/-- An expense record (`Expense` in `src/lib/types.ts`); the balance
logic reads only `siteId` and `amount`. -/
structure Expense where
  id : String
  siteId : String
  amount : Int
deriving DecidableEq, Repr

/-- An advance record (`Advance` in `src/lib/types.ts`); the balance
logic reads only `siteId`, `amount` and `purpose`. -/
structure Advance where
  id : String
  siteId : String
  amount : Int
  purpose : String
deriving DecidableEq, Repr

/-- A funds-received record (`FundsReceived` in `src/lib/types.ts`); the
balance logic reads only `siteId` and `amount`. -/
structure FundsReceived where
  id : String
  siteId : String
  amount : Int
deriving DecidableEq, Repr

/-- An invoice record (`Invoice` in `src/lib/types.ts`); the balance
logic reads only `siteId`, `netAmount`, `approverType` and
`paymentStatus`. -/
structure Invoice where
  id : String
  siteId : String
  netAmount : Int
  approverType : String
  paymentStatus : String
deriving DecidableEq, Repr

/-- The `BalanceSummary` shape returned by `calculateSiteBalanceSummary`
(`src/lib/types.ts`, populated in `src/pages/Expenses.tsx` lines
757-765). -/
structure BalanceSummary where
  fundsReceived : Int
  totalExpenditure : Int
  totalAdvances : Int
  debitsToWorker : Int
  invoicesPaid : Int
  pendingInvoices : Int
  totalBalance : Int
deriving DecidableEq, Repr

/-- Constant DEBIT_ADVANCE_PURPOSES from `src/pages/Expenses.tsx` lines
717-721: the advance purposes treated as debits to a worker. -/
def DEBIT_ADVANCE_PURPOSES : List String :=
  [AdvancePurpose.SAFETY_SHOES, AdvancePurpose.TOOLS, AdvancePurpose.OTHER]

/-- Function `calculateSiteBalanceSummary` from `src/pages/Expenses.tsx`
lines 709-766.  The JavaScript `reduce((sum, x) => sum + x.amount, 0)` calls
become `List.foldl`; the `siteId` parameter is kept even though the body
never reads it, mirroring the source signature. -/
def calculateSiteBalanceSummary (siteId : String) (siteExpenses : List Expense)
    (siteAdvances : List Advance) (siteFunds : List FundsReceived)
    (supervisorInvoices : List Invoice) : BalanceSummary :=
  let regularAdvances := siteAdvances.filter
    (fun advance => !(DEBIT_ADVANCE_PURPOSES.contains advance.purpose))
  let debitAdvances := siteAdvances.filter
    (fun advance => DEBIT_ADVANCE_PURPOSES.contains advance.purpose)
  let totalFunds := siteFunds.foldl (fun sum fund => sum + fund.amount) 0
  let totalExpenses := siteExpenses.foldl (fun sum expense => sum + expense.amount) 0
  let totalRegularAdvances := regularAdvances.foldl (fun sum advance => sum + advance.amount) 0
  let totalDebitToWorker := debitAdvances.foldl (fun sum advance => sum + advance.amount) 0
  let supervisorInvoiceTotal := supervisorInvoices.foldl
    (fun sum invoice => sum + invoice.netAmount) 0
  let pendingInvoicesTotal := (supervisorInvoices.filter
    (fun invoice => invoice.paymentStatus == "pending")).foldl
      (fun sum invoice => sum + invoice.netAmount) 0
  let totalBalance := totalFunds - totalExpenses - totalRegularAdvances - supervisorInvoiceTotal
  { fundsReceived := totalFunds
    totalExpenditure := totalExpenses
    totalAdvances := totalRegularAdvances
    debitsToWorker := totalDebitToWorker
    invoicesPaid := supervisorInvoiceTotal
    pendingInvoices := pendingInvoicesTotal
    totalBalance := totalBalance }

/-- Invoice splitting from `src/pages/Expenses.tsx` lines 298-300:
invoices whose approver type is not `supervisor`. -/
def siteInvoicesSplit (mappedInvoices : List Invoice) : List Invoice :=
  mappedInvoices.filter (fun invoice => !(invoice.approverType == "supervisor"))

/-- Invoice splitting from `src/pages/Expenses.tsx` lines 301-303:
invoices whose approver type is `supervisor`. -/
def supervisorInvoicesSplit (mappedInvoices : List Invoice) : List Invoice :=
  mappedInvoices.filter (fun invoice => invoice.approverType == "supervisor")

/-- Definition `siteSupervisorInvoices` from `src/pages/Expenses.tsx`
lines 782-784:
the supervisor invoices of the selected site. -/
def siteSupervisorInvoices (selectedSiteId : String)
    (supervisorInvoices : List Invoice) : List Invoice :=
  supervisorInvoices.filter (fun invoice => invoice.siteId == selectedSiteId)

/-! The inline balance computation of the `SiteDetail` component,
`src/components/sites/SiteDetail.tsx` lines 113-131.  Each `const` of
the component becomes a function of the component props it reads. -/

namespace SiteDetail

/-- Definition `totalExpenses` (SiteDetail.tsx line 113). -/
def totalExpenses (expenses : List Expense) : Int :=
  expenses.foldl (fun sum expense => sum + expense.amount) 0

/-- Definition `moneyAdvances` (SiteDetail.tsx lines 114-116): inclusion-based
filter, keeping only purpose `ADVANCE`. -/
def moneyAdvances (advances : List Advance) : List Advance :=
  advances.filter (fun advance => advance.purpose == AdvancePurpose.ADVANCE)

/-- Definition `workerDebits` (SiteDetail.tsx lines 117-121). -/
def workerDebits (advances : List Advance) : List Advance :=
  advances.filter (fun advance =>
    advance.purpose == AdvancePurpose.SAFETY_SHOES ||
    advance.purpose == AdvancePurpose.TOOLS ||
    advance.purpose == AdvancePurpose.OTHER)

/-- Definition `totalMoneyAdvances` (SiteDetail.tsx line 122). -/
def totalMoneyAdvances (advances : List Advance) : Int :=
  (moneyAdvances advances).foldl (fun sum advance => sum + advance.amount) 0

/-- Definition `totalWorkerDebits` (SiteDetail.tsx line 123). -/
def totalWorkerDebits (advances : List Advance) : Int :=
  (workerDebits advances).foldl (fun sum advance => sum + advance.amount) 0

/-- Definition `totalFundsReceived` (SiteDetail.tsx line 124). -/
def totalFundsReceived (fundsReceived : List FundsReceived) : Int :=
  fundsReceived.foldl (fun sum fund => sum + fund.amount) 0

/-- Definition `supervisorInvoices` (SiteDetail.tsx line 126). -/
def supervisorInvoices (invoices : List Invoice) : List Invoice :=
  invoices.filter (fun invoice => invoice.approverType == "supervisor")

/-- Definition `totalSupervisorInvoices` (SiteDetail.tsx line 127). -/
def totalSupervisorInvoices (invoices : List Invoice) : Int :=
  (supervisorInvoices invoices).foldl (fun sum invoice => sum + invoice.netAmount) 0

/-- Definition `totalInvoices` (SiteDetail.tsx line 129). -/
def totalInvoices (invoices : List Invoice) : Int :=
  invoices.foldl (fun sum invoice => sum + invoice.netAmount) 0

/-- Definition `totalBalance` (SiteDetail.tsx line 131). -/
def totalBalance (expenses : List Expense) (advances : List Advance)
    (fundsReceived : List FundsReceived) (invoices : List Invoice) : Int :=
  totalFundsReceived fundsReceived - totalExpenses expenses -
    totalMoneyAdvances advances - totalSupervisorInvoices invoices

end SiteDetail

/-! Helper lemmas about the fold-based sums. -/

/-- A left fold accumulating `f x` equals the starting value plus the sum
of the mapped list. -/
theorem foldl_add_eq {α : Type} (f : α → Int) (l : List α) (a : Int) :
    l.foldl (fun sum x => sum + f x) a = a + (l.map f).sum := by
  induction l generalizing a with
  | nil => simp
  | cons x xs ih => simp [ih, add_assoc]

/-- The two complementary filters of a list split its mapped sum. -/
theorem sum_map_filter_add_filter_not {α : Type} (p : α → Bool) (f : α → Int)
    (l : List α) :
    ((l.filter p).map f).sum + ((l.filter (fun x => !(p x))).map f).sum
      = (l.map f).sum := by
  induction l with
  | nil => simp
  | cons x xs ih =>
    cases hx : p x with
    | true =>
      simp only [List.filter_cons, hx, if_true, Bool.not_true, Bool.false_eq_true,
        if_false, List.map_cons, List.sum_cons]
      rw [add_assoc, ih]
    | false =>
      simp only [List.filter_cons, hx, Bool.false_eq_true, if_false,
        Bool.not_false, if_true, List.map_cons, List.sum_cons]
      rw [add_left_comm, ih]

/-- A filtered mapped sum is at most the full mapped sum when all mapped
values are non-negative. -/
theorem sum_map_filter_le {α : Type} (p : α → Bool) (f : α → Int) (l : List α)
    (h : ∀ x ∈ l, 0 ≤ f x) :
    ((l.filter p).map f).sum ≤ (l.map f).sum := by
  induction l with
  | nil => simp
  | cons x xs ih =>
    have hx : 0 ≤ f x := h x (List.mem_cons_self x xs)
    have hxs : ∀ y ∈ xs, 0 ≤ f y := fun y hy => h y (List.mem_cons_of_mem x hy)
    by_cases hpx : p x
    · simpa [List.filter_cons, hpx] using add_le_add_left (ih hxs) (f x)
    · simp only [List.filter_cons, hpx, Bool.false_eq_true, if_false, List.map_cons,
        List.sum_cons]
      calc ((xs.filter p).map f).sum ≤ (xs.map f).sum := ih hxs
        _ ≤ f x + (xs.map f).sum := le_add_of_nonneg_left hx

/-! Statements and proofs of the claims. -/

/-- Claim C1: for every four input collections, the summary returned by
`calculateSiteBalanceSummary` has `fundsReceived`, `totalExpenditure`,
`totalAdvances` (money advances only, i.e. purposes outside
`DEBIT_ADVANCE_PURPOSES`) and `invoicesPaid` (the supervisor-approved
invoices passed in) equal to the corresponding input sums, and
`totalBalance = fundsReceived - totalExpenditure - totalAdvances -
invoicesPaid`. -/
theorem C1_balance_formula (siteId : String) (siteExpenses : List Expense)
    (siteAdvances : List Advance) (siteFunds : List FundsReceived)
    (supervisorInvoices : List Invoice) :
    let summary := calculateSiteBalanceSummary siteId siteExpenses siteAdvances
      siteFunds supervisorInvoices
    summary.fundsReceived = (siteFunds.map FundsReceived.amount).sum ∧
    summary.totalExpenditure = (siteExpenses.map Expense.amount).sum ∧
    summary.totalAdvances = (((siteAdvances.filter
      (fun advance => !(DEBIT_ADVANCE_PURPOSES.contains advance.purpose))).map
        Advance.amount)).sum ∧
    summary.invoicesPaid = (supervisorInvoices.map Invoice.netAmount).sum ∧
    summary.totalBalance = summary.fundsReceived - summary.totalExpenditure -
      summary.totalAdvances - summary.invoicesPaid := by
  refine ⟨?_, ?_, ?_, ?_, ?_⟩ <;>
    simp [calculateSiteBalanceSummary, foldl_add_eq]

/-- Claim C7: when all four input collections are empty, every field of the
returned summary is zero. -/
theorem C7_empty_inputs_all_zero (siteId : String) :
    calculateSiteBalanceSummary siteId [] [] [] [] =
      { fundsReceived := 0, totalExpenditure := 0, totalAdvances := 0,
        debitsToWorker := 0, invoicesPaid := 0, pendingInvoices := 0,
        totalBalance := 0 } := rfl

/-- Claim C3: in `calculateSiteBalanceSummary`, every advance is counted
in exactly one of `totalAdvances` and `debitsToWorker`: the two totals
split the sum of all advance amounts, each advance record lands in
exactly one of the two underlying filtered lists, and an advance whose
purpose lies outside the `AdvancePurpose` enumeration defaults to a
money advance (counted in `totalAdvances`, not in `debitsToWorker`). -/
theorem C3_advance_partition (siteId : String) (siteExpenses : List Expense)
    (siteAdvances : List Advance) (siteFunds : List FundsReceived)
    (supervisorInvoices : List Invoice) (a : Advance) :
    (calculateSiteBalanceSummary siteId siteExpenses siteAdvances siteFunds
        supervisorInvoices).totalAdvances +
      (calculateSiteBalanceSummary siteId siteExpenses siteAdvances siteFunds
        supervisorInvoices).debitsToWorker = (siteAdvances.map Advance.amount).sum ∧
    ((a ∈ siteAdvances.filter
        (fun advance => !(DEBIT_ADVANCE_PURPOSES.contains advance.purpose)) ↔
      a ∈ siteAdvances ∧ ¬(DEBIT_ADVANCE_PURPOSES.contains a.purpose = true)) ∧
     (a ∈ siteAdvances.filter
        (fun advance => DEBIT_ADVANCE_PURPOSES.contains advance.purpose) ↔
      a ∈ siteAdvances ∧ DEBIT_ADVANCE_PURPOSES.contains a.purpose = true)) ∧
    (a.purpose ∉ AdvancePurpose.values →
      (calculateSiteBalanceSummary siteId [] [a] [] []).totalAdvances = a.amount ∧
      (calculateSiteBalanceSummary siteId [] [a] [] []).debitsToWorker = 0) := by
  refine ⟨?_, ⟨?_, ?_⟩, ?_⟩
  · simp only [calculateSiteBalanceSummary, foldl_add_eq, zero_add]
    rw [add_comm]
    exact sum_map_filter_add_filter_not _ _ _
  · simp [List.mem_filter]
  · simp [List.mem_filter]
  · intro h
    have h1 : a.purpose ≠ AdvancePurpose.SAFETY_SHOES := fun he =>
      h (by simp [AdvancePurpose.values, he])
    have h2 : a.purpose ≠ AdvancePurpose.TOOLS := fun he =>
      h (by simp [AdvancePurpose.values, he])
    have h3 : a.purpose ≠ AdvancePurpose.OTHER := fun he =>
      h (by simp [AdvancePurpose.values, he])
    have hm : a.purpose ∉ DEBIT_ADVANCE_PURPOSES := by
      simp only [DEBIT_ADVANCE_PURPOSES, List.mem_cons, List.not_mem_nil, or_false,
        not_or]
      exact ⟨h1, h2, h3⟩
    simp [calculateSiteBalanceSummary, hm]

/-- Witness for claim C3 at a concrete advance with the unmapped purpose
value `misc`: the amount is counted as a money advance and does not
disappear. -/
theorem C3_advance_partition_witness :
    (("misc" : String) ∉ AdvancePurpose.values) ∧
    (calculateSiteBalanceSummary "s1" []
        [{ id := "a1", siteId := "s1", amount := 100, purpose := "misc" }] []
        []).totalAdvances = 100 ∧
    (calculateSiteBalanceSummary "s1" []
        [{ id := "a1", siteId := "s1", amount := 100, purpose := "misc" }] []
        []).debitsToWorker = 0 :=
  ⟨by decide,
    (C3_advance_partition "s1" []
        [{ id := "a1", siteId := "s1", amount := 100, purpose := "misc" }] [] []
        { id := "a1", siteId := "s1", amount := 100, purpose := "misc" }).2.2
      (by decide)⟩

/-- Claim C4: an advance whose purpose is `SAFETY_SHOES`, `TOOLS` or
`OTHER` is classified as a worker debit (counted in `debitsToWorker`,
not in `totalAdvances`), and an advance whose purpose is `ADVANCE` is
classified as a money advance (counted in `totalAdvances`, not in
`debitsToWorker`), in both balance computations of the source
(`calculateSiteBalanceSummary` and the `SiteDetail` component). -/
theorem C4_classifier (siteId : String) (a : Advance) :
    ((a.purpose = AdvancePurpose.SAFETY_SHOES ∨ a.purpose = AdvancePurpose.TOOLS ∨
        a.purpose = AdvancePurpose.OTHER) →
      (calculateSiteBalanceSummary siteId [] [a] [] []).debitsToWorker = a.amount ∧
      (calculateSiteBalanceSummary siteId [] [a] [] []).totalAdvances = 0 ∧
      SiteDetail.totalWorkerDebits [a] = a.amount ∧
      SiteDetail.totalMoneyAdvances [a] = 0) ∧
    (a.purpose = AdvancePurpose.ADVANCE →
      (calculateSiteBalanceSummary siteId [] [a] [] []).totalAdvances = a.amount ∧
      (calculateSiteBalanceSummary siteId [] [a] [] []).debitsToWorker = 0 ∧
      SiteDetail.totalMoneyAdvances [a] = a.amount ∧
      SiteDetail.totalWorkerDebits [a] = 0) := by
  constructor
  · rintro (h | h | h) <;>
      simp [calculateSiteBalanceSummary, SiteDetail.totalWorkerDebits,
        SiteDetail.workerDebits, SiteDetail.totalMoneyAdvances,
        SiteDetail.moneyAdvances, DEBIT_ADVANCE_PURPOSES,
        AdvancePurpose.SAFETY_SHOES, AdvancePurpose.TOOLS, AdvancePurpose.OTHER,
        AdvancePurpose.ADVANCE, h]
  · intro h
    simp [calculateSiteBalanceSummary, SiteDetail.totalWorkerDebits,
      SiteDetail.workerDebits, SiteDetail.totalMoneyAdvances,
      SiteDetail.moneyAdvances, DEBIT_ADVANCE_PURPOSES,
      AdvancePurpose.SAFETY_SHOES, AdvancePurpose.TOOLS, AdvancePurpose.OTHER,
      AdvancePurpose.ADVANCE, h]

/-- Witness for claim C4: a concrete `TOOLS` advance is a worker debit
and a concrete `ADVANCE` advance is a money advance, in both
computations. -/
theorem C4_classifier_witness :
    (calculateSiteBalanceSummary "s1" []
        [{ id := "a1", siteId := "s1", amount := 7,
           purpose := AdvancePurpose.TOOLS }] [] []).debitsToWorker = 7 ∧
    (calculateSiteBalanceSummary "s1" []
        [{ id := "a1", siteId := "s1", amount := 7,
           purpose := AdvancePurpose.TOOLS }] [] []).totalAdvances = 0 ∧
    SiteDetail.totalWorkerDebits
      [{ id := "a1", siteId := "s1", amount := 7,
         purpose := AdvancePurpose.TOOLS }] = 7 ∧
    SiteDetail.totalMoneyAdvances
      [{ id := "a1", siteId := "s1", amount := 7,
         purpose := AdvancePurpose.TOOLS }] = 0 ∧
    (calculateSiteBalanceSummary "s1" []
        [{ id := "a2", siteId := "s1", amount := 5,
           purpose := AdvancePurpose.ADVANCE }] [] []).totalAdvances = 5 ∧
    (calculateSiteBalanceSummary "s1" []
        [{ id := "a2", siteId := "s1", amount := 5,
           purpose := AdvancePurpose.ADVANCE }] [] []).debitsToWorker = 0 ∧
    SiteDetail.totalMoneyAdvances
      [{ id := "a2", siteId := "s1", amount := 5,
         purpose := AdvancePurpose.ADVANCE }] = 5 ∧
    SiteDetail.totalWorkerDebits
      [{ id := "a2", siteId := "s1", amount := 5,
         purpose := AdvancePurpose.ADVANCE }] = 0 := by
  have h1 := (C4_classifier "s1"
    { id := "a1", siteId := "s1", amount := 7,
      purpose := AdvancePurpose.TOOLS }).1 (Or.inr (Or.inl rfl))
  have h2 := (C4_classifier "s1"
    { id := "a2", siteId := "s1", amount := 5,
      purpose := AdvancePurpose.ADVANCE }).2 rfl
  exact ⟨h1.1, h1.2.1, h1.2.2.1, h1.2.2.2, h2.1, h2.2.1, h2.2.2.1, h2.2.2.2⟩

/-- Claim C5: only supervisor-approved invoices are debited against the
site balance.  In the Expenses page pipeline, `invoicesPaid` equals the
sum of `netAmount` over exactly the invoices of the selected site whose
`approverType` is `supervisor`; in `SiteDetail`, the invoice term of the
balance sums only supervisor-approved invoices; and in both places
adding an invoice approved by `ho` leaves `totalBalance` unchanged. -/
theorem C5_supervisor_invoices_only (selectedSiteId : String)
    (siteExpenses : List Expense) (siteAdvances : List Advance)
    (siteFunds : List FundsReceived) (mappedInvoices : List Invoice)
    (i : Invoice) :
    (calculateSiteBalanceSummary selectedSiteId siteExpenses siteAdvances
        siteFunds
        (siteSupervisorInvoices selectedSiteId
          (supervisorInvoicesSplit mappedInvoices))).invoicesPaid
      = ((mappedInvoices.filter (fun invoice =>
            invoice.siteId == selectedSiteId &&
              invoice.approverType == "supervisor")).map Invoice.netAmount).sum ∧
    SiteDetail.totalSupervisorInvoices mappedInvoices
      = ((mappedInvoices.filter
            (fun invoice => invoice.approverType == "supervisor")).map
              Invoice.netAmount).sum ∧
    (i.approverType = "ho" →
      (calculateSiteBalanceSummary selectedSiteId siteExpenses siteAdvances
          siteFunds
          (siteSupervisorInvoices selectedSiteId
            (supervisorInvoicesSplit (i :: mappedInvoices)))).totalBalance
        = (calculateSiteBalanceSummary selectedSiteId siteExpenses siteAdvances
            siteFunds
            (siteSupervisorInvoices selectedSiteId
              (supervisorInvoicesSplit mappedInvoices))).totalBalance ∧
      SiteDetail.totalBalance siteExpenses siteAdvances siteFunds
          (i :: mappedInvoices)
        = SiteDetail.totalBalance siteExpenses siteAdvances siteFunds
            mappedInvoices) := by
  refine ⟨?_, ?_, ?_⟩
  · simp [calculateSiteBalanceSummary, siteSupervisorInvoices,
      supervisorInvoicesSplit, foldl_add_eq, List.filter_filter]
  · simp [SiteDetail.totalSupervisorInvoices, SiteDetail.supervisorInvoices,
      foldl_add_eq]
  · intro h
    constructor
    · simp [calculateSiteBalanceSummary, siteSupervisorInvoices,
        supervisorInvoicesSplit, List.filter_cons, h]
    · simp [SiteDetail.totalBalance, SiteDetail.totalSupervisorInvoices,
        SiteDetail.supervisorInvoices, List.filter_cons, h]

/-- Witness for claim C5 at concrete inputs: a `ho`-approved invoice
contributes nothing to either `totalBalance`. -/
theorem C5_supervisor_invoices_only_witness :
    (calculateSiteBalanceSummary "s1" []
        [] []
        (siteSupervisorInvoices "s1"
          (supervisorInvoicesSplit
            ([{ id := "i2", siteId := "s1", netAmount := 400,
                approverType := "ho", paymentStatus := "paid" },
              { id := "i1", siteId := "s1", netAmount := 300,
                approverType := "supervisor",
                paymentStatus := "paid" }] : List Invoice)))).totalBalance
      = (calculateSiteBalanceSummary "s1" [] [] []
          (siteSupervisorInvoices "s1"
            (supervisorInvoicesSplit
              ([{ id := "i1", siteId := "s1", netAmount := 300,
                  approverType := "supervisor",
                  paymentStatus := "paid" }] : List Invoice)))).totalBalance ∧
    SiteDetail.totalBalance [] [] []
        ([{ id := "i2", siteId := "s1", netAmount := 400,
            approverType := "ho", paymentStatus := "paid" },
          { id := "i1", siteId := "s1", netAmount := 300,
            approverType := "supervisor", paymentStatus := "paid" }] :
          List Invoice)
      = SiteDetail.totalBalance [] [] []
          ([{ id := "i1", siteId := "s1", netAmount := 300,
              approverType := "supervisor", paymentStatus := "paid" }] :
            List Invoice) :=
  (C5_supervisor_invoices_only "s1" [] [] []
      [{ id := "i1", siteId := "s1", netAmount := 300,
         approverType := "supervisor", paymentStatus := "paid" }]
      { id := "i2", siteId := "s1", netAmount := 400, approverType := "ho",
        paymentStatus := "paid" }).2.2 rfl

/-- Claim C6: `debitsToWorker` and `pendingInvoices` never influence
`totalBalance`: removing every worker-debit advance from the advances
collection leaves `totalBalance` unchanged, and rewriting the
`paymentStatus` of the invoices arbitrarily (in particular between
`pending` and `paid`) leaves `totalBalance` unchanged, all other inputs
held fixed. -/
theorem C6_frame_rule (siteId : String) (siteExpenses : List Expense)
    (siteAdvances : List Advance) (siteFunds : List FundsReceived)
    (supervisorInvoices : List Invoice) (newStatus : Invoice → String) :
    (calculateSiteBalanceSummary siteId siteExpenses
        (siteAdvances.filter
          (fun advance => !(DEBIT_ADVANCE_PURPOSES.contains advance.purpose)))
        siteFunds supervisorInvoices).totalBalance
      = (calculateSiteBalanceSummary siteId siteExpenses siteAdvances siteFunds
          supervisorInvoices).totalBalance ∧
    (calculateSiteBalanceSummary siteId siteExpenses siteAdvances siteFunds
        (supervisorInvoices.map
          (fun invoice => { invoice with
            paymentStatus := newStatus invoice }))).totalBalance
      = (calculateSiteBalanceSummary siteId siteExpenses siteAdvances siteFunds
          supervisorInvoices).totalBalance := by
  constructor
  · simp [calculateSiteBalanceSummary, List.filter_filter]
  · simp [calculateSiteBalanceSummary, foldl_add_eq, List.map_map,
      Function.comp_def]

/-- Claim C9: the `siteId` argument never influences the result of
`calculateSiteBalanceSummary`: any two site identifiers give identical
summaries on the same collections. -/
theorem C9_siteId_noninterference (siteId1 siteId2 : String)
    (siteExpenses : List Expense) (siteAdvances : List Advance)
    (siteFunds : List FundsReceived) (supervisorInvoices : List Invoice) :
    calculateSiteBalanceSummary siteId1 siteExpenses siteAdvances siteFunds
        supervisorInvoices =
      calculateSiteBalanceSummary siteId2 siteExpenses siteAdvances siteFunds
        supervisorInvoices := rfl

/-- Claim C8: `totalBalance` is deterministic and order-independent.
For lists of non-negative amounts, permuting any (or all) of the four
input collections yields the same `totalBalance`; determinism on equal
inputs is the special case where every permutation is `List.Perm.refl`. -/
theorem C8_order_independence (siteId : String) (e1 e2 : List Expense)
    (a1 a2 : List Advance) (f1 f2 : List FundsReceived) (i1 i2 : List Invoice)
    (he : e1.Perm e2) (ha : a1.Perm a2) (hf : f1.Perm f2) (hi : i1.Perm i2)
    (_hen : ∀ e ∈ e1, 0 ≤ e.amount) (_han : ∀ a ∈ a1, 0 ≤ a.amount)
    (_hfn : ∀ f ∈ f1, 0 ≤ f.amount) (_hin : ∀ i ∈ i1, 0 ≤ i.netAmount) :
    (calculateSiteBalanceSummary siteId e1 a1 f1 i1).totalBalance
      = (calculateSiteBalanceSummary siteId e2 a2 f2 i2).totalBalance := by
  simp only [calculateSiteBalanceSummary, foldl_add_eq, zero_add]
  rw [(he.map Expense.amount).sum_eq,
    ((ha.filter
      (fun advance => !(DEBIT_ADVANCE_PURPOSES.contains advance.purpose))).map
        Advance.amount).sum_eq,
    (hf.map FundsReceived.amount).sum_eq, (hi.map Invoice.netAmount).sum_eq]

/-- Witness for claim C8: permuting each concrete input collection
leaves `totalBalance` unchanged. -/
theorem C8_order_independence_witness :
    (calculateSiteBalanceSummary "s1"
        [{ id := "e1", siteId := "s1", amount := 1000 },
         { id := "e2", siteId := "s1", amount := 250 }]
        [{ id := "a1", siteId := "s1", amount := 500,
           purpose := AdvancePurpose.ADVANCE },
         { id := "a2", siteId := "s1", amount := 200,
           purpose := AdvancePurpose.TOOLS }]
        [{ id := "f1", siteId := "s1", amount := 2000 },
         { id := "f2", siteId := "s1", amount := 300 }]
        [{ id := "i1", siteId := "s1", netAmount := 300,
           approverType := "supervisor", paymentStatus := "paid" },
         { id := "i2", siteId := "s1", netAmount := 100,
           approverType := "supervisor",
           paymentStatus := "pending" }]).totalBalance
      = (calculateSiteBalanceSummary "s1"
          [{ id := "e2", siteId := "s1", amount := 250 },
           { id := "e1", siteId := "s1", amount := 1000 }]
          [{ id := "a2", siteId := "s1", amount := 200,
             purpose := AdvancePurpose.TOOLS },
           { id := "a1", siteId := "s1", amount := 500,
             purpose := AdvancePurpose.ADVANCE }]
          [{ id := "f2", siteId := "s1", amount := 300 },
           { id := "f1", siteId := "s1", amount := 2000 }]
          [{ id := "i2", siteId := "s1", netAmount := 100,
             approverType := "supervisor", paymentStatus := "pending" },
           { id := "i1", siteId := "s1", netAmount := 300,
             approverType := "supervisor",
             paymentStatus := "paid" }]).totalBalance :=
  C8_order_independence "s1" _ _ _ _ _ _ _ _
    (by decide) (by decide) (by decide) (by decide)
    (by decide) (by decide) (by decide) (by decide)

/-- Claim C10: if every invoice net amount is non-negative, the summary
satisfies `pendingInvoices ≤ invoicesPaid`, because the pending total
sums a subset of the same supervisor-approved invoices. -/
theorem C10_pending_le_paid (siteId : String) (siteExpenses : List Expense)
    (siteAdvances : List Advance) (siteFunds : List FundsReceived)
    (supervisorInvoices : List Invoice)
    (h : ∀ invoice ∈ supervisorInvoices, 0 ≤ invoice.netAmount) :
    (calculateSiteBalanceSummary siteId siteExpenses siteAdvances siteFunds
        supervisorInvoices).pendingInvoices
      ≤ (calculateSiteBalanceSummary siteId siteExpenses siteAdvances siteFunds
          supervisorInvoices).invoicesPaid := by
  simp only [calculateSiteBalanceSummary, foldl_add_eq, zero_add]
  exact sum_map_filter_le _ _ _ h

/-- Witness for claim C10 at concrete invoices, one pending and one
paid. -/
theorem C10_pending_le_paid_witness :
    (calculateSiteBalanceSummary "s1" [] [] []
        [{ id := "i1", siteId := "s1", netAmount := 300,
           approverType := "supervisor", paymentStatus := "pending" },
         { id := "i2", siteId := "s1", netAmount := 200,
           approverType := "supervisor",
           paymentStatus := "paid" }]).pendingInvoices
      ≤ (calculateSiteBalanceSummary "s1" [] [] []
          [{ id := "i1", siteId := "s1", netAmount := 300,
             approverType := "supervisor", paymentStatus := "pending" },
           { id := "i2", siteId := "s1", netAmount := 200,
             approverType := "supervisor",
             paymentStatus := "paid" }]).invoicesPaid :=
  C10_pending_le_paid "s1" [] [] [] _ (by decide)

/-- Modelled from the spec, for the refinement comparison of claim C2
only: a SiteDetail-style balance that subtracts ALL advances regardless
of purpose, following the words of the claim under test (the claim
asserts the SiteDetail balance includes all advances); to be compared
with `SiteDetail.totalBalance`, which is embedded from the source. -/
def siteDetailBalanceAllAdvances (expenses : List Expense)
    (advances : List Advance) (fundsReceived : List FundsReceived)
    (invoices : List Invoice) : Int :=
  SiteDetail.totalFundsReceived fundsReceived - SiteDetail.totalExpenses expenses -
    advances.foldl (fun sum advance => sum + advance.amount) 0 -
    SiteDetail.totalSupervisorInvoices invoices

/-- Counterexample for claim C2 as stated: the SiteDetail balance does
NOT include all advances regardless of purpose.  On a single
`SAFETY_SHOES` advance of 100 the source computes balance 0 (the
advance is filtered out, being no money advance), while a balance that
included all advances would compute -100. -/
theorem C2_counterexample :
    SiteDetail.totalBalance []
        [{ id := "a1", siteId := "s1", amount := 100,
           purpose := AdvancePurpose.SAFETY_SHOES }] [] [] = 0 ∧
    siteDetailBalanceAllAdvances []
        [{ id := "a1", siteId := "s1", amount := 100,
           purpose := AdvancePurpose.SAFETY_SHOES }] [] [] = -100 ∧
    SiteDetail.totalBalance []
        [{ id := "a1", siteId := "s1", amount := 100,
           purpose := AdvancePurpose.SAFETY_SHOES }] [] []
      ≠ siteDetailBalanceAllAdvances []
          [{ id := "a1", siteId := "s1", amount := 100,
             purpose := AdvancePurpose.SAFETY_SHOES }] [] [] := by
  refine ⟨rfl, rfl, ?_⟩
  decide

/-- On advances whose purposes all lie in the `AdvancePurpose`
enumeration, the inclusion-based money-advance filter of `SiteDetail`
agrees with the exclusion-based regular-advance filter of
`calculateSiteBalanceSummary`. -/
theorem money_filter_eq_regular_filter (advances : List Advance)
    (h : ∀ a ∈ advances, a.purpose ∈ AdvancePurpose.values) :
    advances.filter (fun advance => advance.purpose == AdvancePurpose.ADVANCE)
      = advances.filter
          (fun advance => !(DEBIT_ADVANCE_PURPOSES.contains advance.purpose)) := by
  refine List.filter_congr ?_
  intro a ha
  have hv : a.purpose = AdvancePurpose.ADVANCE ∨
      a.purpose = AdvancePurpose.SAFETY_SHOES ∨
      a.purpose = AdvancePurpose.TOOLS ∨ a.purpose = AdvancePurpose.OTHER := by
    simpa [AdvancePurpose.values] using h a ha
  rcases hv with hv | hv | hv | hv <;>
    simp [hv, DEBIT_ADVANCE_PURPOSES, AdvancePurpose.ADVANCE,
      AdvancePurpose.SAFETY_SHOES, AdvancePurpose.TOOLS, AdvancePurpose.OTHER]

/-- Claim C2, amended: both balance computations exclude worker-debit
advances from `totalBalance` and restrict the invoice term to
supervisor-approved invoices; `SiteDetail` classifies money advances by
inclusion (purpose equal to `ADVANCE`) while
`calculateSiteBalanceSummary` classifies by exclusion (purpose not in
`DEBIT_ADVANCE_PURPOSES`), so the two agree whenever every advance
purpose lies in the `AdvancePurpose` enumeration, yet they differ on
some input containing an advance with an unmapped purpose value. -/
theorem C2_amended_consistency (siteId : String) (expenses : List Expense)
    (advances : List Advance) (fundsReceived : List FundsReceived)
    (invoices : List Invoice)
    (h : ∀ a ∈ advances, a.purpose ∈ AdvancePurpose.values) :
    SiteDetail.totalBalance expenses advances fundsReceived invoices
      = (calculateSiteBalanceSummary siteId expenses advances fundsReceived
          (SiteDetail.supervisorInvoices invoices)).totalBalance ∧
    SiteDetail.totalBalance []
        [{ id := "a1", siteId := "s1", amount := 100, purpose := "misc" }] [] []
      ≠ (calculateSiteBalanceSummary "s1" []
          [{ id := "a1", siteId := "s1", amount := 100, purpose := "misc" }] []
          (SiteDetail.supervisorInvoices [])).totalBalance := by
  constructor
  · simp only [SiteDetail.totalBalance, SiteDetail.totalFundsReceived,
      SiteDetail.totalExpenses, SiteDetail.totalMoneyAdvances,
      SiteDetail.moneyAdvances, SiteDetail.totalSupervisorInvoices,
      calculateSiteBalanceSummary, foldl_add_eq, zero_add]
    rw [money_filter_eq_regular_filter advances h]
  · decide

/-- Witness for the amended claim C2 at concrete inputs whose advance
purposes all lie in the enumeration: the two balance computations
agree. -/
theorem C2_amended_consistency_witness :
    SiteDetail.totalBalance
        [{ id := "e1", siteId := "s1", amount := 1000 }]
        [{ id := "a1", siteId := "s1", amount := 500,
           purpose := AdvancePurpose.ADVANCE },
         { id := "a2", siteId := "s1", amount := 200,
           purpose := AdvancePurpose.TOOLS }]
        [{ id := "f1", siteId := "s1", amount := 2000 }]
        [{ id := "i1", siteId := "s1", netAmount := 300,
           approverType := "supervisor", paymentStatus := "paid" },
         { id := "i2", siteId := "s1", netAmount := 400,
           approverType := "ho", paymentStatus := "paid" }]
      = (calculateSiteBalanceSummary "s1"
          [{ id := "e1", siteId := "s1", amount := 1000 }]
          [{ id := "a1", siteId := "s1", amount := 500,
             purpose := AdvancePurpose.ADVANCE },
           { id := "a2", siteId := "s1", amount := 200,
             purpose := AdvancePurpose.TOOLS }]
          [{ id := "f1", siteId := "s1", amount := 2000 }]
          (SiteDetail.supervisorInvoices
            [{ id := "i1", siteId := "s1", netAmount := 300,
               approverType := "supervisor", paymentStatus := "paid" },
             { id := "i2", siteId := "s1", netAmount := 400,
               approverType := "ho",
               paymentStatus := "paid" }])).totalBalance :=
  (C2_amended_consistency "s1" _ _ _ _ (by decide)).1

end FinanceTracker
